import Mathlib

/-!
Shallow embedding of the VoiceOps-NLP core (phase validators, risk signal
bundle, deterministic risk scorer, final JSON assembler) together with
proofs about the documented behaviour.

Conventions of the embedding:
  * Python floats are modelled as rationals (ℚ); `round(x, n)` uses
    round-half-to-even, matching Python's rounding of exact halves.
  * Python dicts passed as weight configuration are modelled as
    association lists `List (String × ℚ)`.
  * Fallible functions (`raise ValueError`, `raise PhaseVerificationError`)
    are modelled with `Except`.
  * Dynamic (JSON-shaped) phase outputs are modelled by the inductive `J`.
-/

namespace VoiceOps

instance {ε α : Type} [DecidableEq ε] [DecidableEq α] :
    DecidableEq (Except ε α) := fun a b =>
  match a, b with
  | Except.error e, Except.error f =>
      if h : e = f then Decidable.isTrue (h ▸ rfl)
      else Decidable.isFalse (fun hc => h (Except.error.inj hc))
  | Except.ok x, Except.ok y =>
      if h : x = y then Decidable.isTrue (h ▸ rfl)
      else Decidable.isFalse (fun hc => h (Except.ok.inj hc))
  | Except.error _, Except.ok _ => Decidable.isFalse (fun hc => Except.noConfusion hc)
  | Except.ok _, Except.error _ => Decidable.isFalse (fun hc => Except.noConfusion hc)

/-- Round-half-to-even to the nearest integer, as Python's builtin
`round` does on exact values. -/
def rhe (x : ℚ) : ℤ :=
  let f : ℤ := ⌊x⌋
  let r : ℚ := x - f
  if r < 1/2 then f
  else if 1/2 < r then f + 1
  else if f % 2 = 0 then f else f + 1

/-- Model of Python `round(x, 2)`: round-half-to-even at two decimals. -/
def round2 (x : ℚ) : ℚ := (rhe (100 * x) : ℚ) / 100

-- ---------------------------------------------------------------------
-- src/risk/signals.py — RiskSignalBundle and its value domains
-- ---------------------------------------------------------------------

/-- Immutable container for all input signals consumed by the risk scorer
(src/risk/signals.py, class RiskSignalBundle). -/
structure RiskSignalBundle where
  sentiment_label : String
  sentiment_confidence : ℚ
  intent_label : String
  intent_confidence : ℚ
  conditionality : String
  obligation_strength : String
  contradictions_detected : Bool
  noise_level : String
  call_stability : String
  speech_naturalness : String
deriving DecidableEq, Repr

def validSentimentLabels : List String :=
  ["calm", "neutral", "stressed", "anxious", "frustrated", "evasive"]

def validIntentLabels : List String :=
  ["repayment_promise", "repayment_delay", "refusal", "deflection",
   "information_seeking", "dispute", "unknown"]

def validConditionality : List String := ["low", "medium", "high"]

def validObligation : List String := ["strong", "weak", "conditional", "none"]

def validNoise : List String := ["low", "medium", "high"]

def validStability : List String := ["low", "medium", "high"]

def validNaturalness : List String := ["normal", "suspicious"]

/-- Validity of a bundle, exactly the checks of
src/risk/signals.py build_signal_bundle: enumerated-domain membership for
every categorical field and [0, 1] range for the two confidences. -/
def ValidBundle (b : RiskSignalBundle) : Prop :=
  b.sentiment_label ∈ validSentimentLabels ∧
  0 ≤ b.sentiment_confidence ∧ b.sentiment_confidence ≤ 1 ∧
  b.intent_label ∈ validIntentLabels ∧
  0 ≤ b.intent_confidence ∧ b.intent_confidence ≤ 1 ∧
  b.conditionality ∈ validConditionality ∧
  b.obligation_strength ∈ validObligation ∧
  b.noise_level ∈ validNoise ∧
  b.call_stability ∈ validStability ∧
  b.speech_naturalness ∈ validNaturalness

instance (b : RiskSignalBundle) : Decidable (ValidBundle b) := by
  unfold ValidBundle; infer_instance

-- ---------------------------------------------------------------------
-- src/risk/scorer.py — dimension scorers
-- ---------------------------------------------------------------------

/-- Lookup table of _score_sentiment; the `.get` default for an unknown
label is 10.0. -/
def sentimentBase (label : String) : ℚ :=
  if label = "calm" then 0
  else if label = "neutral" then 10
  else if label = "anxious" then 55
  else if label = "stressed" then 70
  else if label = "frustrated" then 60
  else if label = "evasive" then 85
  else 10

/-- _score_sentiment: base score scaled by confidence, rounded to 2 dp. -/
def scoreSentiment (b : RiskSignalBundle) : ℚ :=
  round2 (sentimentBase b.sentiment_label * b.sentiment_confidence)

/-- Lookup table of _score_intent; the `.get` default is 50.0. -/
def intentBase (label : String) : ℚ :=
  if label = "repayment_promise" then 5
  else if label = "repayment_delay" then 40
  else if label = "refusal" then 80
  else if label = "deflection" then 75
  else if label = "information_seeking" then 15
  else if label = "dispute" then 65
  else if label = "unknown" then 50
  else 50

/-- _score_intent: base score scaled by confidence, rounded to 2 dp. -/
def scoreIntent (b : RiskSignalBundle) : ℚ :=
  round2 (intentBase b.intent_label * b.intent_confidence)

/-- _score_conditionality; the `.get` default is 50.0. -/
def scoreConditionality (b : RiskSignalBundle) : ℚ :=
  if b.conditionality = "low" then 10
  else if b.conditionality = "medium" then 50
  else if b.conditionality = "high" then 85
  else 50

/-- _score_obligation; the `.get` default is 50.0. -/
def scoreObligation (b : RiskSignalBundle) : ℚ :=
  if b.obligation_strength = "strong" then 5
  else if b.obligation_strength = "weak" then 45
  else if b.obligation_strength = "conditional" then 65
  else if b.obligation_strength = "none" then 80
  else 50

/-- _score_contradictions: 90.0 when detected, else 5.0. -/
def scoreContradictions (b : RiskSignalBundle) : ℚ :=
  if b.contradictions_detected then 90 else 5

/-- _score_audio_trust: weighted mix of naturalness (0.50), noise (0.25)
and stability (0.25); `.get` defaults are 25.0, 25.0 and 0.0. -/
def scoreAudioTrust (b : RiskSignalBundle) : ℚ :=
  let noise : ℚ :=
    if b.noise_level = "low" then 0
    else if b.noise_level = "medium" then 25
    else if b.noise_level = "high" then 55
    else 25
  let stability : ℚ :=
    if b.call_stability = "high" then 0
    else if b.call_stability = "medium" then 25
    else if b.call_stability = "low" then 55
    else 25
  let naturalness : ℚ :=
    if b.speech_naturalness = "normal" then 0
    else if b.speech_naturalness = "suspicious" then 80
    else 0
  round2 (naturalness * 0.50 + noise * 0.25 + stability * 0.25)

/-- Dimension keys in the insertion order of the sub_scores dict in
compute_risk (the dimension-evaluation order). -/
def dims : List String :=
  ["sentiment", "intent", "conditionality", "obligation",
   "contradictions", "audio_trust"]

/-- sub_scores dict of compute_risk, as a function of the dimension key.
Only the six keys of `dims` occur after weight validation. -/
def subScore (b : RiskSignalBundle) (d : String) : ℚ :=
  if d = "sentiment" then scoreSentiment b
  else if d = "intent" then scoreIntent b
  else if d = "conditionality" then scoreConditionality b
  else if d = "obligation" then scoreObligation b
  else if d = "contradictions" then scoreContradictions b
  else if d = "audio_trust" then scoreAudioTrust b
  else 0

/-- _FACTOR_LABELS mapping from dimension key to risk factor label. -/
def factorLabel (d : String) : String :=
  if d = "sentiment" then "high_emotional_stress"
  else if d = "intent" then "risky_intent"
  else if d = "conditionality" then "conditional_commitment"
  else if d = "obligation" then "weak_obligation"
  else if d = "contradictions" then "contradictory_statements"
  else if d = "audio_trust" then "suspicious_audio_signals"
  else ""

/-- The fixed six-label risk factor vocabulary, in dimension order. -/
def factorVocab : List String := dims.map factorLabel

-- ---------------------------------------------------------------------
-- src/risk/scorer.py — weights, validation and the public compute_risk
-- ---------------------------------------------------------------------

/-- DEFAULT_WEIGHTS dict, in insertion order. -/
def defaultWeights : List (String × ℚ) :=
  [("sentiment", 0.20), ("intent", 0.20), ("conditionality", 0.15),
   ("obligation", 0.15), ("contradictions", 0.15), ("audio_trust", 0.15)]

def FRAUD_THRESHOLD_HIGH : ℚ := 65
def FRAUD_THRESHOLD_MEDIUM : ℚ := 35
def RISK_FACTOR_THRESHOLD : ℚ := 50

/-- Python set equality `set(actual) == set(expected)` for the key check
of _validate_weights, expressed extensionally on the key lists. -/
def keysMatch (w : List (String × ℚ)) : Bool :=
  (w.map Prod.fst).all (fun k => dims.contains k) &&
    dims.all (fun k => (w.map Prod.fst).contains k)

/-- _validate_weights: key set must equal the six dimension names and the
values must sum to 1.0 within an absolute tolerance of 0.001; otherwise a
ValueError is raised (modelled as `Except.error`). -/
def validateWeights (w : List (String × ℚ)) :
    Except String (List (String × ℚ)) :=
  if ¬ keysMatch w then
    Except.error "Invalid weight keys"
  else if 0.001 < |(w.map Prod.snd).sum - 1| then
    Except.error "Weights must sum to 1.0"
  else
    Except.ok w

/-- Risk assessment record returned by compute_risk. -/
structure RiskAssessment where
  risk_score : ℤ
  fraud_likelihood : String
  confidence : ℚ
  key_risk_factors : List String
deriving DecidableEq, Repr

/-- _compute_confidence: 0.40·sentiment + 0.40·intent + 0.20 flat base,
clamped to [0, 1] and rounded to 2 decimal places. -/
def computeConfidence (b : RiskSignalBundle) : ℚ :=
  round2 (min (max (b.sentiment_confidence * 0.40 +
    b.intent_confidence * 0.40 + 0.20) 0) 1)

/-- Body of compute_risk after successful weight validation: weighted sum
of the sub-scores, clamped and rounded; threshold classification; factor
collection in dimension-evaluation order. -/
def riskFromWeights (b : RiskSignalBundle) (w : List (String × ℚ))
    (fraudHigh fraudMedium riskFactorThreshold : ℚ) : RiskAssessment :=
  let rawScore : ℚ := (w.map (fun p => subScore b p.1 * p.2)).sum
  let riskScore : ℤ := rhe (min (max rawScore 0) 100)
  let fraudLikelihood : String :=
    if fraudHigh ≤ (riskScore : ℚ) then "high"
    else if fraudMedium ≤ (riskScore : ℚ) then "medium"
    else "low"
  let keyRiskFactors : List String :=
    (dims.filter (fun d => riskFactorThreshold ≤ subScore b d)).map factorLabel
  ⟨riskScore, fraudLikelihood, computeConfidence b, keyRiskFactors⟩

/-- compute_risk: resolve the weights with `weights or DEFAULT_WEIGHTS` —
Python's `or` falls back on every falsy left operand, so an *empty* dict,
like None, is silently replaced by the defaults — validate, then produce
the deterministic risk assessment. -/
def computeRisk (b : RiskSignalBundle) (weights : Option (List (String × ℚ)))
    (fraudHigh fraudMedium riskFactorThreshold : ℚ) :
    Except String RiskAssessment :=
  let active : List (String × ℚ) :=
    match weights with
    | none => defaultWeights
    | some w => if w.isEmpty then defaultWeights else w
  match validateWeights active with
  | Except.error e => Except.error e
  | Except.ok w =>
      Except.ok (riskFromWeights b w fraudHigh fraudMedium riskFactorThreshold)

-- ---------------------------------------------------------------------
-- Concrete bundles used in example scenarios and witnesses
-- ---------------------------------------------------------------------

/-- Bundle of spec example scenario 2 (claim C5). -/
def scenario2Bundle : RiskSignalBundle :=
  ⟨"evasive", 0.9, "deflection", 0.85, "high", "none", true,
   "high", "low", "suspicious"⟩

/-- Minimal-risk bundle except for the contradiction flag: every other
sub-score is at its minimum. -/
def minimalContradictionBundle : RiskSignalBundle :=
  ⟨"calm", 0, "repayment_promise", 0, "low", "strong", true,
   "low", "high", "normal"⟩

/-- A simple low-risk valid bundle used to instantiate witnesses. -/
def sampleBundle : RiskSignalBundle :=
  ⟨"calm", 1, "repayment_promise", 1, "low", "strong", false,
   "low", "high", "normal"⟩

/-- A weight mapping whose values sum to 0.8 (invalid by tolerance). -/
def badSumWeights : List (String × ℚ) :=
  [("sentiment", 0), ("intent", 0.20), ("conditionality", 0.15),
   ("obligation", 0.15), ("contradictions", 0.15), ("audio_trust", 0.15)]

-- ---------------------------------------------------------------------
-- Dynamic (JSON-shaped) values for phase outputs — src/phase_validator.py
-- ---------------------------------------------------------------------

/-- Python-value model for the untyped dict/list outputs the phase
validators receive. `boolv` is kept separate from `num` but counts as
numeric below because Python bool is a subclass of int. -/
inductive J : Type where
  | null : J
  | boolv : Bool → J
  | num : ℚ → J
  | str : String → J
  | arr : List J → J
  | obj : List (String × J) → J

/-- Python `key in d` for a dict-shaped value; false for non-dicts. -/
def jHasKey (j : J) (k : String) : Bool :=
  match j with
  | J.obj fields => (fields.map Prod.fst).contains k
  | _ => false

/-- Python `d[key]` after a presence check; `J.null` stands for the
unreachable missing case. -/
def jGet (j : J) (k : String) : J :=
  match j with
  | J.obj fields => (fields.lookup k).getD J.null
  | _ => J.null

/-- Python `isinstance(x, (int, float))`; bool passes because Python bool
is an int subtype. -/
def jIsNumber (j : J) : Bool :=
  match j with
  | J.num _ => true
  | J.boolv _ => true
  | _ => false

/-- Python `isinstance(x, str) and x.strip()` truthiness: the stripped
string is non-empty exactly when some character is not whitespace. -/
def jIsNonEmptyStr (j : J) : Bool :=
  match j with
  | J.str s => s.data.any (fun c => !c.isWhitespace)
  | _ => false

/-- Python type name of a value, used in validator error messages. -/
def jTypeName (j : J) : String :=
  match j with
  | J.null => "NoneType"
  | J.boolv _ => "bool"
  | J.num _ => "float"
  | J.str _ => "str"
  | J.arr _ => "list"
  | J.obj _ => "dict"

/-- PhaseVerificationError carrying the phase identifier and cause. -/
structure PhaseVerificationError where
  phase : String
  message : String
deriving DecidableEq, Repr

-- ---------------------------------------------------------------------
-- src/phase_validator.py — verify_phase2
-- ---------------------------------------------------------------------

/-- The diarization error message verify_phase2 emits for segment `i`. -/
def speakerMsg (i : Nat) : String :=
  "Segment " ++ toString i ++
    " contains speaker key - diarization is FORBIDDEN in Phase 2"

/-- Per-segment checks of verify_phase2, in source order: dict shape,
required keys (start_time, end_time, text), numeric timestamps, non-empty
text, and the forbidden speaker key. `i` is the enumerate index used in
messages. -/
def checkSegment (i : Nat) (seg : J) : Except PhaseVerificationError Unit :=
  match seg with
  | J.obj _ =>
      if ¬ jHasKey seg "start_time" then
        Except.error ⟨"2", "Segment " ++ toString i ++ " missing required key start_time"⟩
      else if ¬ jHasKey seg "end_time" then
        Except.error ⟨"2", "Segment " ++ toString i ++ " missing required key end_time"⟩
      else if ¬ jHasKey seg "text" then
        Except.error ⟨"2", "Segment " ++ toString i ++ " missing required key text"⟩
      else if ¬ jIsNumber (jGet seg "start_time") then
        Except.error ⟨"2", "Segment " ++ toString i ++ " start_time is not numeric"⟩
      else if ¬ jIsNumber (jGet seg "end_time") then
        Except.error ⟨"2", "Segment " ++ toString i ++ " end_time is not numeric"⟩
      else if ¬ jIsNonEmptyStr (jGet seg "text") then
        Except.error ⟨"2", "Segment " ++ toString i ++ " has empty or non-string text"⟩
      else if jHasKey seg "speaker" then
        Except.error ⟨"2", speakerMsg i⟩
      else
        Except.ok ()
  | _ =>
      Except.error ⟨"2", "Segment " ++ toString i ++ " is not a dict: " ++ jTypeName seg⟩

/-- The enumerate loop of verify_phase2 starting at index `i`. -/
def checkSegmentsFrom (i : Nat) : List J → Except PhaseVerificationError Unit
  | [] => Except.ok ()
  | seg :: rest =>
      match checkSegment i seg with
      | Except.error e => Except.error e
      | Except.ok _ => checkSegmentsFrom (i + 1) rest

/-- verify_phase2: list shape, non-emptiness, then the per-segment loop. -/
def verifyPhase2 (transcript : J) : Except PhaseVerificationError Unit :=
  match transcript with
  | J.arr segs =>
      if segs.isEmpty then
        Except.error ⟨"2", "Transcript is empty - no STT output"⟩
      else
        checkSegmentsFrom 0 segs
  | _ =>
      Except.error ⟨"2", "Expected list, got " ++ jTypeName transcript⟩

/-- The structural properties a segment must satisfy for checkSegment to
return ok — note there is no comparison between end_time and start_time. -/
def segmentStructOk (seg : J) : Bool :=
  (match seg with | J.obj _ => true | _ => false) &&
  jHasKey seg "start_time" && jHasKey seg "end_time" && jHasKey seg "text" &&
  jIsNumber (jGet seg "start_time") && jIsNumber (jGet seg "end_time") &&
  jIsNonEmptyStr (jGet seg "text") && !(jHasKey seg "speaker")

/-- The per-segment checks that run before the speaker check: a segment
satisfying these (and carrying a speaker key) reaches the diarization
error. -/
def segmentPreSpeakerOk (seg : J) : Bool :=
  (match seg with | J.obj _ => true | _ => false) &&
  jHasKey seg "start_time" && jHasKey seg "end_time" && jHasKey seg "text" &&
  jIsNumber (jGet seg "start_time") && jIsNumber (jGet seg "end_time") &&
  jIsNonEmptyStr (jGet seg "text")

-- ---------------------------------------------------------------------
-- src/phase_validator.py — verify_phase5
-- ---------------------------------------------------------------------

/-- Python `sentiment["label"] not in _VALID_SENTIMENT_LABELS`, where a
non-string value is never in the string set. -/
def jIsValidSentimentLabel (v : J) : Bool :=
  match v with
  | J.str s => validSentimentLabels.contains s
  | _ => false

/-- Numeric value of a J known to satisfy jIsNumber (Python bool counts
as 1 or 0). -/
def jNumVal (v : J) : ℚ :=
  match v with
  | J.num q => q
  | J.boolv b => if b then 1 else 0
  | _ => 0

/-- verify_phase5: dict shape, label and confidence presence, label
domain, numeric confidence in [0, 1], then the forbidden keys risk_score,
fraud_likelihood and intent, in source order. -/
def verifyPhase5 (sentiment : J) : Except PhaseVerificationError Unit :=
  match sentiment with
  | J.obj _ =>
      if ¬ jHasKey sentiment "label" then
        Except.error ⟨"5", "Missing label key"⟩
      else if ¬ jHasKey sentiment "confidence" then
        Except.error ⟨"5", "Missing confidence key"⟩
      else if ¬ jIsValidSentimentLabel (jGet sentiment "label") then
        Except.error ⟨"5", "Invalid sentiment label"⟩
      else if ¬ jIsNumber (jGet sentiment "confidence") then
        Except.error ⟨"5", "Confidence is not numeric"⟩
      else if jNumVal (jGet sentiment "confidence") < 0 ∨
          1 < jNumVal (jGet sentiment "confidence") then
        Except.error ⟨"5", "Confidence out of range"⟩
      else if jHasKey sentiment "risk_score" then
        Except.error ⟨"5", "Sentiment contains forbidden key risk_score - " ++
          "Phase 5 must NOT contain risk or intent data"⟩
      else if jHasKey sentiment "fraud_likelihood" then
        Except.error ⟨"5", "Sentiment contains forbidden key fraud_likelihood - " ++
          "Phase 5 must NOT contain risk or intent data"⟩
      else if jHasKey sentiment "intent" then
        Except.error ⟨"5", "Sentiment contains forbidden key intent - " ++
          "Phase 5 must NOT contain risk or intent data"⟩
      else
        Except.ok ()
  | _ =>
      Except.error ⟨"5", "Expected dict, got " ++ jTypeName sentiment⟩

-- ---------------------------------------------------------------------
-- src/pipeline.py — behavioral flags and final JSON assembly
-- ---------------------------------------------------------------------

/-- _BEHAVIORAL_FLAG_MAP: risk factor label → behavioral flag. -/
def behavioralFlagMap (factor : String) : Option String :=
  if factor = "conditional_commitment" then some "conditional_commitment"
  else if factor = "contradictory_statements" then some "statement_contradiction"
  else if factor = "high_emotional_stress" then some "emotional_distress"
  else if factor = "risky_intent" then some "evasive_responses"
  else if factor = "weak_obligation" then some "weak_commitment"
  else none

/-- _derive_behavioral_flags: map each key risk factor through the flag
map, skipping unmapped factors and duplicates, then force-append the
contradiction flag when contradictions were detected. -/
def deriveBehavioralFlags (keyRiskFactors : List String)
    (contradictionsDetected : Bool) : List String :=
  let flags := keyRiskFactors.foldl
    (fun acc factor =>
      match behavioralFlagMap factor with
      | some flag => if flag ∈ acc then acc else acc ++ [flag]
      | none => acc) []
  if contradictionsDetected ∧ "statement_contradiction" ∉ flags then
    flags ++ ["statement_contradiction"]
  else
    flags

/-- Audio quality signals from Phase 1 (noise_level, call_stability,
speech_naturalness). -/
structure AudioQuality where
  noise_level : String
  call_stability : String
  speech_naturalness : String

/-- speaker_analysis derived from Phase 3 output. -/
structure SpeakerAnalysis where
  customer_only_analysis : Bool
  agent_influence_detected : Bool

/-- Phase 5 sentiment record. -/
structure SentimentResult where
  label : String
  confidence : ℚ

/-- Phase 6 intent record. -/
structure IntentResult where
  label : String
  confidence : ℚ
  conditionality : String

/-- Phase 6 entity extraction record; both values are nullable. -/
structure Entities where
  payment_commitment : Option String
  amount_mentioned : Option ℚ

/-- One conversation utterance (speaker + text) echoed by the assembler. -/
structure Utterance where
  speaker : String
  text : String

def optStrToJ : Option String → J
  | some s => J.str s
  | none => J.null

def optRatToJ : Option ℚ → J
  | some q => J.num q
  | none => J.null

/-- Serialization of one conversation utterance in the final record. -/
def uttToJ (u : Utterance) : J :=
  J.obj [("speaker", J.str u.speaker), ("text", J.str u.text)]

/-- _assemble_final_json: pure field placement into the locked output
shape. Top-level keys in source order; the conversation parameter
defaults to the empty list (`conversation or []`). -/
def assembleFinalJson (call_language : String) (audio_quality : AudioQuality)
    (speaker_analysis : SpeakerAnalysis) (sentiment : SentimentResult)
    (intent : IntentResult) (obligation_strength : String)
    (entities : Entities) (contradictions_detected : Bool)
    (audio_trust_flags behavioral_flags : List String)
    (risk_assessment : RiskAssessment) (summary : String)
    (conversation : Option (List Utterance)) : J :=
  J.obj [
    ("call_context", J.obj [
      ("call_language", J.str call_language),
      ("call_quality", J.obj [
        ("noise_level", J.str audio_quality.noise_level),
        ("call_stability", J.str audio_quality.call_stability),
        ("speech_naturalness", J.str audio_quality.speech_naturalness)])]),
    ("speaker_analysis", J.obj [
      ("customer_only_analysis", J.boolv speaker_analysis.customer_only_analysis),
      ("agent_influence_detected", J.boolv speaker_analysis.agent_influence_detected)]),
    ("nlp_insights", J.obj [
      ("intent", J.obj [
        ("label", J.str intent.label),
        ("confidence", J.num intent.confidence),
        ("conditionality", J.str intent.conditionality)]),
      ("sentiment", J.obj [
        ("label", J.str sentiment.label),
        ("confidence", J.num sentiment.confidence)]),
      ("obligation_strength", J.str obligation_strength),
      ("entities", J.obj [
        ("payment_commitment", optStrToJ entities.payment_commitment),
        ("amount_mentioned", optRatToJ entities.amount_mentioned)]),
      ("contradictions_detected", J.boolv contradictions_detected)]),
    ("risk_signals", J.obj [
      ("audio_trust_flags", J.arr (audio_trust_flags.map J.str)),
      ("behavioral_flags", J.arr (behavioral_flags.map J.str))]),
    ("risk_assessment", J.obj [
      ("risk_score", J.num (risk_assessment.risk_score : ℚ)),
      ("fraud_likelihood", J.str risk_assessment.fraud_likelihood),
      ("confidence", J.num risk_assessment.confidence)]),
    ("summary_for_rag", J.str summary),
    ("conversation", J.arr ((conversation.getD []).map uttToJ))]

/-- Top-level keys of a dict-shaped value. -/
def topKeys (j : J) : List String :=
  match j with
  | J.obj fields => fields.map Prod.fst
  | _ => []

mutual

/-- All keys occurring anywhere in a value (top-level and nested). -/
def jKeys : J → List String
  | J.obj fields => jKeysPairs fields
  | J.arr items => jKeysList items
  | _ => []

def jKeysPairs : List (String × J) → List String
  | [] => []
  | (k, v) :: rest => k :: (jKeys v ++ jKeysPairs rest)

def jKeysList : List J → List String
  | [] => []
  | v :: rest => jKeys v ++ jKeysList rest

end

/-- Every key (top-level or nested) that can occur in an assembled final
record, independent of the input values. -/
def allowedKeys : List String :=
  ["call_context", "call_language", "call_quality", "noise_level",
   "call_stability", "speech_naturalness", "speaker_analysis",
   "customer_only_analysis", "agent_influence_detected", "nlp_insights",
   "intent", "label", "confidence", "conditionality", "sentiment",
   "obligation_strength", "entities", "payment_commitment",
   "amount_mentioned", "contradictions_detected", "risk_signals",
   "audio_trust_flags", "behavioral_flags", "risk_assessment",
   "risk_score", "fraud_likelihood", "summary_for_rag", "conversation",
   "speaker", "text"]

/-- The seven top-level keys the assembler actually emits, in order. -/
def emittedTopKeys : List String :=
  ["call_context", "speaker_analysis", "nlp_insights", "risk_signals",
   "risk_assessment", "summary_for_rag", "conversation"]

/-- All keys of an assembled record except those of the conversation echo,
in traversal order (with repetitions). -/
def assembledKeyList : List String :=
  ["call_context", "call_language", "call_quality", "noise_level",
   "call_stability", "speech_naturalness", "speaker_analysis",
   "customer_only_analysis", "agent_influence_detected", "nlp_insights",
   "intent", "label", "confidence", "conditionality", "sentiment",
   "label", "confidence", "obligation_strength", "entities",
   "payment_commitment", "amount_mentioned", "contradictions_detected",
   "risk_signals", "audio_trust_flags", "behavioral_flags",
   "risk_assessment", "risk_score", "fraud_likelihood", "confidence",
   "summary_for_rag", "conversation"]

/-- A concrete assembled record used as the schema counterexample. -/
def sampleFinal : J :=
  assembleFinalJson "english" ⟨"low", "high", "normal"⟩ ⟨true, false⟩
    ⟨"calm", 0.9⟩ ⟨"repayment_promise", 0.9, "low"⟩ "strong" ⟨none, none⟩
    false [] [] ⟨10, "low", 0.9, []⟩ "Customer promised repayment."
    (some [⟨"AGENT", "hello"⟩])

/-- A transcript segment with end_time ≤ start_time but otherwise valid. -/
def endLeStartSegment : J :=
  J.obj [("start_time", J.num 5), ("end_time", J.num 3), ("text", J.str "hello")]

/-- A segment carrying only a speaker key (missing everything else). -/
def speakerOnlySegment : J :=
  J.obj [("speaker", J.str "AGENT")]

/-- A structurally valid segment that additionally carries a speaker key. -/
def validSpeakerSegment : J :=
  J.obj [("start_time", J.num 0), ("end_time", J.num 1),
    ("text", J.str "hi"), ("speaker", J.str "AGENT")]

-- =====================================================================
-- Theorems
-- =====================================================================

-- Helper lemmas about the rounding function

theorem floor_le_rhe (x : ℚ) : ⌊x⌋ ≤ rhe x := by
  unfold rhe
  dsimp only
  split
  · exact le_refl _
  · split
    · exact Int.le.intro 1 rfl
    · split
      · exact le_refl _
      · exact Int.le.intro 1 rfl

theorem rhe_le_of_le (x : ℚ) (n : ℤ) (h : x ≤ (n : ℚ)) : rhe x ≤ n := by
  unfold rhe
  dsimp only
  have hf : ⌊x⌋ ≤ n := (Int.floor_le_floor h).trans_eq (Int.floor_intCast n)
  split
  · exact hf
  · rename_i hlt
    push_neg at hlt
    have hx : (⌊x⌋ : ℚ) + 1/2 ≤ x := by linarith [hlt]
    have hfn : (⌊x⌋ : ℚ) < (n : ℚ) := by linarith
    have hfn' : ⌊x⌋ < n := by exact_mod_cast hfn
    have hstep : ⌊x⌋ + 1 ≤ n := hfn'
    split
    · exact hstep
    · split
      · exact hf
      · exact hstep

theorem le_rhe_of_le (x : ℚ) (n : ℤ) (h : (n : ℚ) ≤ x) : n ≤ rhe x := by
  have : n ≤ ⌊x⌋ := Int.le_floor.mpr h
  exact this.trans (floor_le_rhe x)

theorem rhe_nonneg (x : ℚ) (h : 0 ≤ x) : 0 ≤ rhe x :=
  le_rhe_of_le x 0 (by exact_mod_cast h)

theorem round2_nonneg (x : ℚ) (h : 0 ≤ x) : 0 ≤ round2 x := by
  unfold round2
  have : (0 : ℤ) ≤ rhe (100 * x) := rhe_nonneg _ (by linarith)
  positivity

theorem round2_le_one (x : ℚ) (h : x ≤ 1) : round2 x ≤ 1 := by
  unfold round2
  have h100 : 100 * x ≤ ((100 : ℤ) : ℚ) := by push_cast; linarith
  have hle : rhe (100 * x) ≤ 100 := rhe_le_of_le _ 100 h100
  have hc : ((rhe (100 * x) : ℤ) : ℚ) ≤ 100 := by exact_mod_cast hle
  linarith

theorem round2_le_of_le (x : ℚ) (n : ℤ) (h : (n : ℚ) ≤ 100 * x) :
    (n : ℚ) / 100 ≤ round2 x := by
  unfold round2
  have hle : n ≤ rhe (100 * x) := le_rhe_of_le _ n h
  have hc : ((n : ℤ) : ℚ) ≤ ((rhe (100 * x) : ℤ) : ℚ) := by exact_mod_cast hle
  linarith

-- Helper lemmas about riskFromWeights / computeRisk

theorem riskFromWeights_risk_score (b : RiskSignalBundle)
    (w : List (String × ℚ)) (fh fm thr : ℚ) :
    (riskFromWeights b w fh fm thr).risk_score =
      rhe (min (max ((w.map (fun p => subScore b p.1 * p.2)).sum) 0) 100) := rfl

theorem riskFromWeights_fraud (b : RiskSignalBundle)
    (w : List (String × ℚ)) (fh fm thr : ℚ) :
    (riskFromWeights b w fh fm thr).fraud_likelihood =
      (if fh ≤ ((riskFromWeights b w fh fm thr).risk_score : ℚ) then "high"
       else if fm ≤ ((riskFromWeights b w fh fm thr).risk_score : ℚ) then "medium"
       else "low") := rfl

theorem riskFromWeights_confidence (b : RiskSignalBundle)
    (w : List (String × ℚ)) (fh fm thr : ℚ) :
    (riskFromWeights b w fh fm thr).confidence = computeConfidence b := rfl

theorem riskFromWeights_krf (b : RiskSignalBundle)
    (w : List (String × ℚ)) (fh fm thr : ℚ) :
    (riskFromWeights b w fh fm thr).key_risk_factors =
      (dims.filter (fun d => thr ≤ subScore b d)).map factorLabel := rfl

theorem computeRisk_none_ok (b : RiskSignalBundle) (fh fm thr : ℚ) :
    computeRisk b none fh fm thr =
      Except.ok (riskFromWeights b defaultWeights fh fm thr) := by
  unfold computeRisk validateWeights
  norm_num [keysMatch, defaultWeights, dims]

theorem krf_eq (b : RiskSignalBundle) (thr : ℚ) :
    (dims.filter (fun d => thr ≤ subScore b d)).map factorLabel =
      (if thr ≤ scoreSentiment b then ["high_emotional_stress"] else []) ++
      (if thr ≤ scoreIntent b then ["risky_intent"] else []) ++
      (if thr ≤ scoreConditionality b then ["conditional_commitment"] else []) ++
      (if thr ≤ scoreObligation b then ["weak_obligation"] else []) ++
      (if thr ≤ scoreContradictions b then ["contradictory_statements"] else []) ++
      (if thr ≤ scoreAudioTrust b then ["suspicious_audio_signals"] else []) := by
  simp [dims, List.filter_cons, subScore]
  split_ifs <;> simp_all [factorLabel]

/-- C3: for every valid RiskSignalBundle and default parameters,
compute_risk succeeds and returns an integer risk_score in [0, 100], a
fraud_likelihood among low/medium/high, a confidence in [0, 1], and
key_risk_factors drawn without duplicates from the fixed six-label
vocabulary, in dimension-evaluation order (a sublist of factorVocab). -/
theorem c3_range_invariants (b : RiskSignalBundle) (hv : ValidBundle b) :
    ∃ r, computeRisk b none FRAUD_THRESHOLD_HIGH FRAUD_THRESHOLD_MEDIUM
        RISK_FACTOR_THRESHOLD = Except.ok r ∧
      0 ≤ r.risk_score ∧ r.risk_score ≤ 100 ∧
      r.fraud_likelihood ∈ ["low", "medium", "high"] ∧
      0 ≤ r.confidence ∧ r.confidence ≤ 1 ∧
      r.key_risk_factors.Sublist factorVocab ∧
      r.key_risk_factors.Nodup := by
  refine ⟨riskFromWeights b defaultWeights FRAUD_THRESHOLD_HIGH
    FRAUD_THRESHOLD_MEDIUM RISK_FACTOR_THRESHOLD, computeRisk_none_ok b _ _ _,
    ?_, ?_, ?_, ?_, ?_, ?_, ?_⟩
  · rw [riskFromWeights_risk_score]
    exact rhe_nonneg _ (le_min (le_max_right _ _) (by norm_num))
  · rw [riskFromWeights_risk_score]
    refine rhe_le_of_le _ 100 ?_
    push_cast
    exact min_le_right _ _
  · rw [riskFromWeights_fraud]
    split_ifs <;> simp
  · rw [riskFromWeights_confidence]
    unfold computeConfidence
    exact round2_nonneg _ (le_min (le_max_right _ _) zero_le_one)
  · rw [riskFromWeights_confidence]
    unfold computeConfidence
    exact round2_le_one _ (min_le_right _ _)
  · rw [riskFromWeights_krf]
    exact (List.filter_sublist _).map factorLabel
  · rw [riskFromWeights_krf]
    have hvocab : (dims.map factorLabel).Nodup := by decide
    exact hvocab.sublist ((List.filter_sublist _).map factorLabel)

/-- Witness for C3 at a concrete valid bundle. -/
theorem c3_range_invariants_witness :
    ValidBundle sampleBundle ∧
    ∃ r, computeRisk sampleBundle none FRAUD_THRESHOLD_HIGH
        FRAUD_THRESHOLD_MEDIUM RISK_FACTOR_THRESHOLD = Except.ok r ∧
      0 ≤ r.risk_score ∧ r.risk_score ≤ 100 ∧
      r.fraud_likelihood ∈ ["low", "medium", "high"] ∧
      0 ≤ r.confidence ∧ r.confidence ≤ 1 ∧
      r.key_risk_factors.Sublist factorVocab ∧
      r.key_risk_factors.Nodup := by
  have hv : ValidBundle sampleBundle :=
    ⟨by simp [sampleBundle, validSentimentLabels],
     by norm_num [sampleBundle], by norm_num [sampleBundle],
     by simp [sampleBundle, validIntentLabels],
     by norm_num [sampleBundle], by norm_num [sampleBundle],
     by simp [sampleBundle, validConditionality],
     by simp [sampleBundle, validObligation],
     by simp [sampleBundle, validNoise],
     by simp [sampleBundle, validStability],
     by simp [sampleBundle, validNaturalness]⟩
  exact ⟨hv, c3_range_invariants sampleBundle hv⟩

/-- C8: for every valid bundle, the confidence returned by compute_risk
equals round2 of the clamped linear combination
0.40·sentiment_confidence + 0.40·intent_confidence + 0.20, and is
strictly positive even when both upstream confidences are 0. -/
theorem c8_confidence_formula (b : RiskSignalBundle) (hv : ValidBundle b) :
    ∃ r, computeRisk b none FRAUD_THRESHOLD_HIGH FRAUD_THRESHOLD_MEDIUM
        RISK_FACTOR_THRESHOLD = Except.ok r ∧
      r.confidence = round2 (min (max (b.sentiment_confidence * 0.40 +
        b.intent_confidence * 0.40 + 0.20) 0) 1) ∧
      0 < r.confidence := by
  obtain ⟨-, hs0, -, -, hi0, -, -⟩ := hv
  refine ⟨riskFromWeights b defaultWeights FRAUD_THRESHOLD_HIGH
    FRAUD_THRESHOLD_MEDIUM RISK_FACTOR_THRESHOLD, computeRisk_none_ok b _ _ _,
    riskFromWeights_confidence b _ _ _ _, ?_⟩
  rw [riskFromWeights_confidence]
  unfold computeConfidence
  have hu : (1/5 : ℚ) ≤ b.sentiment_confidence * 0.40 +
      b.intent_confidence * 0.40 + 0.20 := by nlinarith
  have hmin : (1/5 : ℚ) ≤ min (max (b.sentiment_confidence * 0.40 +
      b.intent_confidence * 0.40 + 0.20) 0) 1 := by
    refine le_min (hu.trans (le_max_left _ _)) (by norm_num)
  have h20 : ((20 : ℤ) : ℚ) ≤ 100 * min (max (b.sentiment_confidence * 0.40 +
      b.intent_confidence * 0.40 + 0.20) 0) 1 := by push_cast; linarith
  have := round2_le_of_le _ 20 h20
  have h0 : (0 : ℚ) < ((20 : ℤ) : ℚ) / 100 := by norm_num
  linarith

/-- Witness for C8 at a concrete valid bundle. -/
theorem c8_confidence_formula_witness :
    ValidBundle sampleBundle ∧
    ∃ r, computeRisk sampleBundle none FRAUD_THRESHOLD_HIGH
        FRAUD_THRESHOLD_MEDIUM RISK_FACTOR_THRESHOLD = Except.ok r ∧
      r.confidence = round2 (min (max (sampleBundle.sentiment_confidence * 0.40 +
        sampleBundle.intent_confidence * 0.40 + 0.20) 0) 1) ∧
      0 < r.confidence := by
  have hv : ValidBundle sampleBundle :=
    ⟨by simp [sampleBundle, validSentimentLabels],
     by norm_num [sampleBundle], by norm_num [sampleBundle],
     by simp [sampleBundle, validIntentLabels],
     by norm_num [sampleBundle], by norm_num [sampleBundle],
     by simp [sampleBundle, validConditionality],
     by simp [sampleBundle, validObligation],
     by simp [sampleBundle, validNoise],
     by simp [sampleBundle, validStability],
     by simp [sampleBundle, validNaturalness]⟩
  exact ⟨hv, c8_confidence_formula sampleBundle hv⟩

theorem keysMatch_iff (w : List (String × ℚ)) :
    keysMatch w = true ↔ (w.map Prod.fst).toFinset = dims.toFinset := by
  unfold keysMatch
  simp only [Bool.and_eq_true, List.all_eq_true]
  constructor
  · rintro ⟨h1, h2⟩
    ext k
    simp only [List.mem_toFinset]
    constructor
    · intro hk
      simpa using h1 k hk
    · intro hk
      simpa using h2 k hk
  · intro h
    constructor
    · intro k hk
      have hm : k ∈ dims := by
        have hiff := Finset.ext_iff.mp h k
        simp only [List.mem_toFinset] at hiff
        exact hiff.mp hk
      simpa using hm
    · intro k hk
      have hm : k ∈ w.map Prod.fst := by
        have hiff := Finset.ext_iff.mp h k
        simp only [List.mem_toFinset] at hiff
        exact hiff.mpr hk
      simpa using hm

/-- C4 as stated is false at the empty mapping: its key set is missing
all six dimensions, yet compute_risk silently proceeds with the default
weights, because Python's `weights or DEFAULT_WEIGHTS` falls back on the
falsy empty dict exactly as on None. -/
theorem c4_counterexample :
    ((([] : List (String × ℚ)).map Prod.fst).toFinset ≠ dims.toFinset) ∧
    computeRisk sampleBundle (some []) FRAUD_THRESHOLD_HIGH
        FRAUD_THRESHOLD_MEDIUM RISK_FACTOR_THRESHOLD =
      Except.ok (riskFromWeights sampleBundle defaultWeights
        FRAUD_THRESHOLD_HIGH FRAUD_THRESHOLD_MEDIUM RISK_FACTOR_THRESHOLD) := by
  refine ⟨by decide, ?_⟩
  unfold computeRisk validateWeights
  norm_num [keysMatch, defaultWeights, dims]

/-- C4 amended: every non-empty weight mapping whose key set is not
exactly the six dimensions, or whose values do not sum to 1.0 within
±0.001, makes compute_risk fail with a configuration error — it never
silently proceeds or renormalizes; the empty mapping is the sole
exception, silently replaced by the defaults. -/
theorem c4_weight_validation_amended (b : RiskSignalBundle)
    (w : List (String × ℚ)) (hne : w ≠ [])
    (hbad : (w.map Prod.fst).toFinset ≠ dims.toFinset ∨
      0.001 < |(w.map Prod.snd).sum - 1|) :
    ∃ e, computeRisk b (some w) FRAUD_THRESHOLD_HIGH FRAUD_THRESHOLD_MEDIUM
      RISK_FACTOR_THRESHOLD = Except.error e := by
  have hval : ∃ e, validateWeights w = Except.error e := by
    rcases hbad with hkeys | hsum
    · refine ⟨"Invalid weight keys", ?_⟩
      unfold validateWeights
      rw [if_pos (fun h => hkeys ((keysMatch_iff w).mp h))]
    · by_cases hkm : keysMatch w = true
      · refine ⟨"Weights must sum to 1.0", ?_⟩
        unfold validateWeights
        rw [if_neg (by simp [hkm]), if_pos hsum]
      · refine ⟨"Invalid weight keys", ?_⟩
        unfold validateWeights
        rw [if_pos hkm]
  obtain ⟨e, he⟩ := hval
  refine ⟨e, ?_⟩
  have hie : w.isEmpty = false := by simpa [List.isEmpty_iff] using hne
  unfold computeRisk
  simp [hie, he]

/-- Witness for the amended C4: non-empty weights summing to 0.8 are
rejected. -/
theorem c4_weight_validation_witness :
    badSumWeights ≠ [] ∧
    (0.001 : ℚ) < |(badSumWeights.map Prod.snd).sum - 1| ∧
    ∃ e, computeRisk sampleBundle (some badSumWeights) FRAUD_THRESHOLD_HIGH
      FRAUD_THRESHOLD_MEDIUM RISK_FACTOR_THRESHOLD = Except.error e := by
  have hne : badSumWeights ≠ [] := by simp [badSumWeights]
  have hsum : (0.001 : ℚ) < |(badSumWeights.map Prod.snd).sum - 1| := by
    have hs : (badSumWeights.map Prod.snd).sum = 0.8 := by
      norm_num [badSumWeights]
    rw [hs]
    rw [show (0.8 : ℚ) - 1 = -(0.2 : ℚ) by norm_num, abs_neg,
      abs_of_nonneg (by norm_num)]
    norm_num
  exact ⟨hne, hsum,
    c4_weight_validation_amended sampleBundle badSumWeights hne (Or.inr hsum)⟩

/-- C2 as stated is false: with risk_factor_threshold = 91, a bundle with
contradictions_detected = true yields key_risk_factors without
"contradictory_statements" (the list is empty), because the contradiction
sub-score 90 is below the threshold and compute_risk contains no forced
inclusion. -/
theorem c2_counterexample :
    minimalContradictionBundle.contradictions_detected = true ∧
    computeRisk minimalContradictionBundle none FRAUD_THRESHOLD_HIGH
        FRAUD_THRESHOLD_MEDIUM 91 =
      Except.ok ⟨16, "low", 0.2, []⟩ := by
  refine ⟨rfl, ?_⟩
  rw [computeRisk_none_ok]
  have h1 : scoreSentiment minimalContradictionBundle = 0 := by
    simp [scoreSentiment, sentimentBase, minimalContradictionBundle]
    norm_num [round2, rhe]
  have h2 : scoreIntent minimalContradictionBundle = 0 := by
    simp [scoreIntent, intentBase, minimalContradictionBundle]
    norm_num [round2, rhe]
  have h3 : scoreConditionality minimalContradictionBundle = 10 := by
    simp [scoreConditionality, minimalContradictionBundle]
  have h4 : scoreObligation minimalContradictionBundle = 5 := by
    simp [scoreObligation, minimalContradictionBundle]
  have h5 : scoreContradictions minimalContradictionBundle = 90 := by
    simp [scoreContradictions, minimalContradictionBundle]
  have h6 : scoreAudioTrust minimalContradictionBundle = 0 := by
    simp [scoreAudioTrust, minimalContradictionBundle]
    norm_num [round2, rhe]
  have hc : computeConfidence minimalContradictionBundle = 0.2 := by
    simp [computeConfidence, minimalContradictionBundle]
    norm_num [round2, rhe]
  simp only [riskFromWeights]
  rw [krf_eq]
  simp [defaultWeights, subScore, h1, h2, h3, h4, h5, h6, hc,
    FRAUD_THRESHOLD_HIGH, FRAUD_THRESHOLD_MEDIUM]
  norm_num [rhe]

/-- C2 amended: with the default risk_factor_threshold (50) — indeed with
any threshold at most the contradiction sub-score 90 — a bundle with
contradictions_detected = true always includes "contradictory_statements"
in key_risk_factors, regardless of every other sub-score. -/
theorem c2_forced_inclusion_amended (b : RiskSignalBundle) (thr : ℚ)
    (hv : ValidBundle b) (hcontra : b.contradictions_detected = true)
    (hthr : thr ≤ 90) :
    ∃ r, computeRisk b none FRAUD_THRESHOLD_HIGH FRAUD_THRESHOLD_MEDIUM thr =
        Except.ok r ∧
      "contradictory_statements" ∈ r.key_risk_factors := by
  refine ⟨_, computeRisk_none_ok b _ _ _, ?_⟩
  rw [riskFromWeights_krf, krf_eq]
  have h90 : scoreContradictions b = 90 := by
    simp [scoreContradictions, hcontra]
  rw [h90, if_pos hthr]
  simp

/-- Witness for the amended C2 at the minimal contradiction bundle and the
default threshold. -/
theorem c2_forced_inclusion_witness :
    ValidBundle minimalContradictionBundle ∧
    minimalContradictionBundle.contradictions_detected = true ∧
    ∃ r, computeRisk minimalContradictionBundle none FRAUD_THRESHOLD_HIGH
        FRAUD_THRESHOLD_MEDIUM RISK_FACTOR_THRESHOLD = Except.ok r ∧
      "contradictory_statements" ∈ r.key_risk_factors := by
  have hv : ValidBundle minimalContradictionBundle :=
    ⟨by simp [minimalContradictionBundle, validSentimentLabels],
     by norm_num [minimalContradictionBundle],
     by norm_num [minimalContradictionBundle],
     by simp [minimalContradictionBundle, validIntentLabels],
     by norm_num [minimalContradictionBundle],
     by norm_num [minimalContradictionBundle],
     by simp [minimalContradictionBundle, validConditionality],
     by simp [minimalContradictionBundle, validObligation],
     by simp [minimalContradictionBundle, validNoise],
     by simp [minimalContradictionBundle, validStability],
     by simp [minimalContradictionBundle, validNaturalness]⟩
  exact ⟨hv, rfl, c2_forced_inclusion_amended minimalContradictionBundle
    RISK_FACTOR_THRESHOLD hv rfl (by norm_num [RISK_FACTOR_THRESHOLD])⟩

/-- C5: the spec example scenario 2 bundle with default parameters yields
risk_score ≥ 65 (in fact 76), fraud_likelihood "high", and
key_risk_factors containing "contradictory_statements" plus at least two
more factors (in fact all six). -/
theorem c5_scenario2 :
    ∃ r, computeRisk scenario2Bundle none FRAUD_THRESHOLD_HIGH
        FRAUD_THRESHOLD_MEDIUM RISK_FACTOR_THRESHOLD = Except.ok r ∧
      65 ≤ r.risk_score ∧
      r.fraud_likelihood = "high" ∧
      "contradictory_statements" ∈ r.key_risk_factors ∧
      3 ≤ r.key_risk_factors.length := by
  have h1 : scoreSentiment scenario2Bundle = 76.5 := by
    simp [scoreSentiment, sentimentBase, scenario2Bundle]
    norm_num [round2, rhe]
  have h2 : scoreIntent scenario2Bundle = 63.75 := by
    simp [scoreIntent, intentBase, scenario2Bundle]
    norm_num [round2, rhe]
  have h3 : scoreConditionality scenario2Bundle = 85 := by
    simp [scoreConditionality, scenario2Bundle]
  have h4 : scoreObligation scenario2Bundle = 80 := by
    simp [scoreObligation, scenario2Bundle]
  have h5 : scoreContradictions scenario2Bundle = 90 := by
    simp [scoreContradictions, scenario2Bundle]
  have h6 : scoreAudioTrust scenario2Bundle = 67.5 := by
    simp [scoreAudioTrust, scenario2Bundle]
    norm_num [round2, rhe]
  have hc : computeConfidence scenario2Bundle = 0.9 := by
    simp [computeConfidence, scenario2Bundle]
    norm_num [round2, rhe]
  have heval : riskFromWeights scenario2Bundle defaultWeights
      FRAUD_THRESHOLD_HIGH FRAUD_THRESHOLD_MEDIUM RISK_FACTOR_THRESHOLD =
      ⟨76, "high", 0.9,
        ["high_emotional_stress", "risky_intent", "conditional_commitment",
         "weak_obligation", "contradictory_statements",
         "suspicious_audio_signals"]⟩ := by
    simp only [riskFromWeights]
    rw [krf_eq]
    simp [defaultWeights, subScore, h1, h2, h3, h4, h5, h6, hc,
      FRAUD_THRESHOLD_HIGH, FRAUD_THRESHOLD_MEDIUM, RISK_FACTOR_THRESHOLD]
    norm_num [rhe]
  refine ⟨_, computeRisk_none_ok scenario2Bundle _ _ _, ?_, ?_, ?_, ?_⟩
  · rw [heval]; norm_num
  · rw [heval]
  · rw [heval]; simp
  · rw [heval]; simp

-- Helper lemmas about verify_phase2 / verify_phase5

theorem checkSegment_ok_structOk (i : Nat) (seg : J)
    (h : checkSegment i seg = Except.ok ()) : segmentStructOk seg = true := by
  cases seg with
  | obj fields =>
      unfold checkSegment at h
      split_ifs at h with h1 h2 h3 h4 h5 h6 h7
      all_goals try exact Except.noConfusion h
      have h7' : jHasKey (J.obj fields) "speaker" = false := by
        simpa using h7
      simp [segmentStructOk, h1, h2, h3, h4, h5, h6, h7']
  | null => simp [checkSegment] at h
  | boolv b => simp [checkSegment] at h
  | num q => simp [checkSegment] at h
  | str s => simp [checkSegment] at h
  | arr l => simp [checkSegment] at h

theorem checkSegmentsFrom_ok (segs : List J) :
    ∀ i, checkSegmentsFrom i segs = Except.ok () →
      ∀ seg ∈ segs, segmentStructOk seg = true := by
  induction segs with
  | nil =>
      intro i _ seg hm
      cases hm
  | cons s rest ih =>
      intro i h seg hm
      rcases hcs : checkSegment i s with e | u
      · rw [checkSegmentsFrom, hcs] at h
        exact Except.noConfusion h
      · cases u
        rw [checkSegmentsFrom, hcs] at h
        rcases List.mem_cons.mp hm with rfl | hm'
        · exact checkSegment_ok_structOk i seg hcs
        · exact ih (i + 1) h seg hm'

/-- C6 amended: Phase-2 verification enforces, for every segment of a
passing transcript, the presence of start_time/end_time/text, numeric
timestamps, non-empty string text and the absence of a speaker key — but
no comparison between end_time and start_time (segmentStructOk contains
no such check), so a segment with end_time ≤ start_time passes. -/
theorem c6_phase2_checks_amended (segs : List J)
    (h : verifyPhase2 (J.arr segs) = Except.ok ()) :
    ∀ seg ∈ segs, segmentStructOk seg = true := by
  have hdef : verifyPhase2 (J.arr segs) =
      (if segs.isEmpty then
        Except.error ⟨"2", "Transcript is empty - no STT output"⟩
      else checkSegmentsFrom 0 segs) := rfl
  rw [hdef] at h
  split_ifs at h with he
  exact checkSegmentsFrom_ok segs 0 h

/-- Witness for the amended C6: the passing transcript with
end_time = 3 < start_time = 5 satisfies the enforced structural checks. -/
theorem c6_phase2_checks_witness : segmentStructOk endLeStartSegment = true :=
  c6_phase2_checks_amended [endLeStartSegment] (by decide) endLeStartSegment
    (List.mem_singleton.mpr rfl)

/-- C6 as stated is false: verify_phase2 accepts a transcript whose only
segment has end_time = 3 ≤ start_time = 5, instead of raising a
verification failure. -/
theorem c6_counterexample :
    verifyPhase2 (J.arr [endLeStartSegment]) = Except.ok () ∧
    jNumVal (jGet endLeStartSegment "end_time") ≤
      jNumVal (jGet endLeStartSegment "start_time") := by decide

theorem checkSegment_speaker_error (i : Nat) (seg : J)
    (h : jHasKey seg "speaker" = true) :
    ∃ e, checkSegment i seg = Except.error e := by
  cases seg with
  | obj fields =>
      unfold checkSegment
      split_ifs with h1 h2 h3 h4 h5 h6 h7
      all_goals first
        | exact ⟨_, rfl⟩
        | exact absurd h h7
  | null => exact ⟨_, rfl⟩
  | boolv b => exact ⟨_, rfl⟩
  | num q => exact ⟨_, rfl⟩
  | str s => exact ⟨_, rfl⟩
  | arr l => exact ⟨_, rfl⟩

theorem checkSegmentsFrom_speaker_error (segs : List J) :
    ∀ i, (∃ seg ∈ segs, jHasKey seg "speaker" = true) →
      ∃ e, checkSegmentsFrom i segs = Except.error e := by
  induction segs with
  | nil =>
      rintro i ⟨seg, hm, -⟩
      cases hm
  | cons s rest ih =>
      rintro i ⟨seg, hm, hk⟩
      rcases hcs : checkSegment i s with e | u
      · exact ⟨e, by rw [checkSegmentsFrom, hcs]⟩
      · cases u
        rcases List.mem_cons.mp hm with rfl | hm'
        · obtain ⟨e, he⟩ := checkSegment_speaker_error i seg hk
          rw [he] at hcs
          exact Except.noConfusion hcs
        · obtain ⟨e, he⟩ := ih (i + 1) ⟨seg, hm', hk⟩
          exact ⟨e, by rw [checkSegmentsFrom, hcs, he]⟩

theorem verifyPhase5_risk_score_error (s : J)
    (h : jHasKey s "risk_score" = true) :
    ∃ e, verifyPhase5 s = Except.error e := by
  cases s with
  | obj fields =>
      unfold verifyPhase5
      split_ifs with h1 h2 h3 h4 h5 h6 h7 h8
      all_goals first
        | exact ⟨_, rfl⟩
        | exact absurd h h6
  | null => exact ⟨_, rfl⟩
  | boolv b => exact ⟨_, rfl⟩
  | num q => exact ⟨_, rfl⟩
  | str s => exact ⟨_, rfl⟩
  | arr l => exact ⟨_, rfl⟩

theorem checkSegment_ok_of_structOk (i : Nat) (seg : J)
    (h : segmentStructOk seg = true) : checkSegment i seg = Except.ok () := by
  cases seg with
  | obj fields =>
      simp only [segmentStructOk, Bool.and_eq_true, Bool.not_eq_true'] at h
      obtain ⟨⟨⟨⟨⟨⟨⟨-, h1⟩, h2⟩, h3⟩, h4⟩, h5⟩, h6⟩, h7⟩ := h
      unfold checkSegment
      rw [if_neg (by simp [h1]), if_neg (by simp [h2]), if_neg (by simp [h3]),
        if_neg (by simp [h4]), if_neg (by simp [h5]), if_neg (by simp [h6]),
        if_neg (by simp [h7])]
  | null => simp [segmentStructOk] at h
  | boolv b => simp [segmentStructOk] at h
  | num q => simp [segmentStructOk] at h
  | str s => simp [segmentStructOk] at h
  | arr l => simp [segmentStructOk] at h

theorem checkSegment_speaker_msg (i : Nat) (seg : J)
    (hok : segmentPreSpeakerOk seg = true) (hsp : jHasKey seg "speaker" = true) :
    checkSegment i seg = Except.error ⟨"2", speakerMsg i⟩ := by
  cases seg with
  | obj fields =>
      simp only [segmentPreSpeakerOk, Bool.and_eq_true] at hok
      obtain ⟨⟨⟨⟨⟨⟨-, h1⟩, h2⟩, h3⟩, h4⟩, h5⟩, h6⟩ := hok
      unfold checkSegment
      rw [if_neg (by simp [h1]), if_neg (by simp [h2]), if_neg (by simp [h3]),
        if_neg (by simp [h4]), if_neg (by simp [h5]), if_neg (by simp [h6]),
        if_pos hsp]
  | null => simp [segmentPreSpeakerOk] at hok
  | boolv b => simp [segmentPreSpeakerOk] at hok
  | num q => simp [segmentPreSpeakerOk] at hok
  | str s => simp [segmentPreSpeakerOk] at hok
  | arr l => simp [segmentPreSpeakerOk] at hok

theorem checkSegmentsFrom_speaker_msg (pre : List J) :
    ∀ (i : Nat) (seg : J) (post : List J),
      (∀ s ∈ pre, segmentStructOk s = true) →
      segmentPreSpeakerOk seg = true →
      jHasKey seg "speaker" = true →
      checkSegmentsFrom i (pre ++ seg :: post) =
        Except.error ⟨"2", speakerMsg (i + pre.length)⟩ := by
  induction pre with
  | nil =>
      intro i seg post _ hok hsp
      rw [List.nil_append, checkSegmentsFrom, checkSegment_speaker_msg i seg hok hsp]
      simp
  | cons s t ih =>
      intro i seg post hpre hok hsp
      have hs : segmentStructOk s = true := hpre s (List.mem_cons_self s t)
      rw [List.cons_append, checkSegmentsFrom, checkSegment_ok_of_structOk i s hs]
      rw [ih (i + 1) seg post (fun x hx => hpre x (List.mem_cons_of_mem s hx))
        hok hsp]
      have hidx : i + 1 + t.length = i + (s :: t).length := by
        simp [List.length_cons]
        omega
      rw [hidx]

theorem phrase_infix_speakerMsg (i : Nat) :
    List.IsInfix ("diarization is FORBIDDEN").data (speakerMsg i).data := by
  have h1 : List.IsInfix ("diarization is FORBIDDEN").data
      (" contains speaker key - diarization is FORBIDDEN in Phase 2" :
        String).data := by decide
  have h2 : (speakerMsg i).data =
      ("Segment " ++ toString i).data ++
      (" contains speaker key - diarization is FORBIDDEN in Phase 2" :
        String).data := by
    simp [speakerMsg, String.data_append]
  rw [h2]
  exact h1.trans (List.suffix_append _ _).isInfix

/-- C7 amended: every sentiment output containing a risk_score key fails
phase-5 verification; every transcript containing a segment with a
speaker key fails phase-2 verification; and whenever every segment before
the speaker-bearing one passes all per-segment checks and that segment
itself passes its own earlier structural checks, the failure is exactly
the segment-indexed diarization error, whose message references
"diarization is FORBIDDEN". -/
theorem c7_negative_contract_amended :
    (∀ s : J, jHasKey s "risk_score" = true →
      ∃ e, verifyPhase5 s = Except.error e) ∧
    (∀ segs : List J, (∃ seg ∈ segs, jHasKey seg "speaker" = true) →
      ∃ e, verifyPhase2 (J.arr segs) = Except.error e) ∧
    (∀ (pre : List J) (seg : J) (post : List J),
      (∀ s ∈ pre, segmentStructOk s = true) →
      segmentPreSpeakerOk seg = true →
      jHasKey seg "speaker" = true →
      verifyPhase2 (J.arr (pre ++ seg :: post)) =
        Except.error ⟨"2", speakerMsg pre.length⟩ ∧
      List.IsInfix ("diarization is FORBIDDEN").data
        (speakerMsg pre.length).data) := by
  refine ⟨verifyPhase5_risk_score_error, ?_, ?_⟩
  · intro segs hex
    have hne : segs ≠ [] := by
      rintro rfl
      obtain ⟨seg, hm, -⟩ := hex
      cases hm
    obtain ⟨e, he⟩ := checkSegmentsFrom_speaker_error segs 0 hex
    refine ⟨e, ?_⟩
    have hdef : verifyPhase2 (J.arr segs) =
        (if segs.isEmpty then
          Except.error ⟨"2", "Transcript is empty - no STT output"⟩
        else checkSegmentsFrom 0 segs) := rfl
    rw [hdef, if_neg (by simp [List.isEmpty_iff, hne]), he]
  · intro pre seg post hpre hok hsp
    refine ⟨?_, phrase_infix_speakerMsg pre.length⟩
    have hdef : verifyPhase2 (J.arr (pre ++ seg :: post)) =
        (if (pre ++ seg :: post).isEmpty then
          Except.error ⟨"2", "Transcript is empty - no STT output"⟩
        else checkSegmentsFrom 0 (pre ++ seg :: post)) := rfl
    rw [hdef, if_neg (by simp),
      checkSegmentsFrom_speaker_msg pre 0 seg post hpre hok hsp]
    simp

/-- Witness for the amended C7 at concrete inputs, including a
structurally valid speaker-bearing segment after a fully valid segment. -/
theorem c7_negative_contract_witness :
    (∃ e, verifyPhase5 (J.obj [("risk_score", J.num 1)]) = Except.error e) ∧
    (∃ e, verifyPhase2 (J.arr [speakerOnlySegment]) = Except.error e) ∧
    verifyPhase2 (J.arr [endLeStartSegment, validSpeakerSegment]) =
      Except.error ⟨"2", speakerMsg 1⟩ :=
  ⟨c7_negative_contract_amended.1 (J.obj [("risk_score", J.num 1)]) (by decide),
   c7_negative_contract_amended.2.1 [speakerOnlySegment]
     ⟨speakerOnlySegment, List.mem_singleton.mpr rfl, by decide⟩,
   (c7_negative_contract_amended.2.2 [endLeStartSegment] validSpeakerSegment []
     (by intro s hs; rw [List.mem_singleton.mp hs]; decide)
     (by decide) (by decide)).1⟩

/-- C7 as stated is false in its message clause: a segment carrying a
speaker key but missing start_time fails phase-2 verification with a
missing-key message that does not reference "diarization is FORBIDDEN". -/
theorem c7_counterexample :
    jHasKey speakerOnlySegment "speaker" = true ∧
    verifyPhase2 (J.arr [speakerOnlySegment]) =
      Except.error ⟨"2", "Segment 0 missing required key start_time"⟩ ∧
    ¬ List.IsInfix ("diarization is FORBIDDEN").data
      ("Segment 0 missing required key start_time").data := by decide

-- Helper lemmas about the assembled record's key structure

theorem jKeys_optStr (o : Option String) : jKeys (optStrToJ o) = [] := by
  cases o <;> rfl

theorem jKeys_optRat (o : Option ℚ) : jKeys (optRatToJ o) = [] := by
  cases o <;> rfl

theorem jKeysList_strs (l : List String) : jKeysList (l.map J.str) = [] := by
  induction l with
  | nil => rfl
  | cons s t ih => simp [jKeysList, jKeys, ih]

theorem jKeysList_utts (us : List Utterance) :
    ∀ k ∈ jKeysList (us.map uttToJ), k = "speaker" ∨ k = "text" := by
  induction us with
  | nil =>
      intro k hk
      simp [jKeysList] at hk
  | cons u t ih =>
      intro k hk
      simp only [List.map_cons, jKeysList] at hk
      rcases List.mem_append.mp hk with h | h
      · have hu : jKeys (uttToJ u) = ["speaker", "text"] := rfl
        rw [hu] at h
        simpa using h
      · exact ih k h

theorem jKeys_assemble_eq (cl : String) (aq : AudioQuality)
    (sa : SpeakerAnalysis) (se : SentimentResult) (it : IntentResult)
    (ob : String) (en : Entities) (cd : Bool) (atf bf : List String)
    (ra : RiskAssessment) (su : String) (conv : Option (List Utterance)) :
    jKeys (assembleFinalJson cl aq sa se it ob en cd atf bf ra su conv) =
      assembledKeyList ++ jKeysList ((conv.getD []).map uttToJ) := by
  simp [assembleFinalJson, jKeys, jKeysPairs, jKeysList, jKeys_optStr,
    jKeys_optRat, jKeysList_strs, assembledKeyList]

theorem not_mem_jKeys_assemble (cl : String) (aq : AudioQuality)
    (sa : SpeakerAnalysis) (se : SentimentResult) (it : IntentResult)
    (ob : String) (en : Entities) (cd : Bool) (atf bf : List String)
    (ra : RiskAssessment) (su : String) (conv : Option (List Utterance))
    (k : String) (h1 : k ∉ assembledKeyList) (h2 : k ≠ "speaker")
    (h3 : k ≠ "text") :
    k ∉ jKeys (assembleFinalJson cl aq sa se it ob en cd atf bf ra su conv) := by
  intro h
  rw [jKeys_assemble_eq] at h
  rcases List.mem_append.mp h with h | h
  · exact h1 h
  · rcases jKeysList_utts _ k h with rfl | rfl
    · exact h2 rfl
    · exact h3 rfl

/-- C1 as stated is false: the assembled record has seven top-level keys,
not six — the six documented groups plus the conversation echo. -/
theorem c1_counterexample :
    topKeys sampleFinal = emittedTopKeys ∧
    (topKeys sampleFinal).length = 7 := by decide

/-- C1 amended: for every input combination, the assembled record has
exactly the seven fixed top-level keys (the six documented groups plus
the conversation echo), in a fixed order, contains no identifier-like
keys anywhere (call_id, customer_id, loan_id), and represents the
optional entity values as null under always-present keys. -/
theorem c1_schema_lock_amended (cl : String) (aq : AudioQuality)
    (sa : SpeakerAnalysis) (se : SentimentResult) (it : IntentResult)
    (ob : String) (en : Entities) (cd : Bool) (atf bf : List String)
    (ra : RiskAssessment) (su : String) (conv : Option (List Utterance)) :
    topKeys (assembleFinalJson cl aq sa se it ob en cd atf bf ra su conv) =
      emittedTopKeys ∧
    "call_id" ∉ jKeys (assembleFinalJson cl aq sa se it ob en cd atf bf ra su conv) ∧
    "customer_id" ∉ jKeys (assembleFinalJson cl aq sa se it ob en cd atf bf ra su conv) ∧
    "loan_id" ∉ jKeys (assembleFinalJson cl aq sa se it ob en cd atf bf ra su conv) ∧
    jGet (jGet (assembleFinalJson cl aq sa se it ob en cd atf bf ra su conv)
        "nlp_insights") "entities" =
      J.obj [("payment_commitment", optStrToJ en.payment_commitment),
             ("amount_mentioned", optRatToJ en.amount_mentioned)] ∧
    optStrToJ none = J.null ∧ optRatToJ none = J.null :=
  ⟨rfl,
   not_mem_jKeys_assemble cl aq sa se it ob en cd atf bf ra su conv
     "call_id" (by decide) (by decide) (by decide),
   not_mem_jKeys_assemble cl aq sa se it ob en cd atf bf ra su conv
     "customer_id" (by decide) (by decide) (by decide),
   not_mem_jKeys_assemble cl aq sa se it ob en cd atf bf ra su conv
     "loan_id" (by decide) (by decide) (by decide),
   rfl, rfl, rfl⟩

/-- C9: the risk_assessment group of the assembled record contains exactly
the three keys risk_score, fraud_likelihood and confidence; the
key_risk_factors field of the Risk Assessment is never echoed anywhere in
the final record. -/
theorem c9_risk_assessment_group (cl : String) (aq : AudioQuality)
    (sa : SpeakerAnalysis) (se : SentimentResult) (it : IntentResult)
    (ob : String) (en : Entities) (cd : Bool) (atf bf : List String)
    (ra : RiskAssessment) (su : String) (conv : Option (List Utterance)) :
    jGet (assembleFinalJson cl aq sa se it ob en cd atf bf ra su conv)
        "risk_assessment" =
      J.obj [("risk_score", J.num (ra.risk_score : ℚ)),
             ("fraud_likelihood", J.str ra.fraud_likelihood),
             ("confidence", J.num ra.confidence)] ∧
    topKeys (jGet (assembleFinalJson cl aq sa se it ob en cd atf bf ra su conv)
        "risk_assessment") =
      ["risk_score", "fraud_likelihood", "confidence"] ∧
    "key_risk_factors" ∉
      jKeys (assembleFinalJson cl aq sa se it ob en cd atf bf ra su conv) :=
  ⟨rfl, rfl,
   not_mem_jKeys_assemble cl aq sa se it ob en cd atf bf ra su conv
     "key_risk_factors" (by decide) (by decide) (by decide)⟩

-- Helper lemma: the behavioral-flag fold preserves Nodup

theorem behavioralFold_nodup (krf : List String) :
    ∀ acc : List String, acc.Nodup →
      (krf.foldl (fun acc factor =>
        match behavioralFlagMap factor with
        | some flag => if flag ∈ acc then acc else acc ++ [flag]
        | none => acc) acc).Nodup := by
  induction krf with
  | nil =>
      intro acc h
      simpa using h
  | cons f t ih =>
      intro acc h
      rw [List.foldl_cons]
      rcases hm : behavioralFlagMap f with _ | flag
      · simp only [hm]
        exact ih acc h
      · simp only [hm]
        by_cases hin : flag ∈ acc
        · rw [if_pos hin]
          exact ih acc h
        · rw [if_neg hin]
          refine ih _ ?_
          rw [List.nodup_append]
          refine ⟨h, List.nodup_singleton _, ?_⟩
          intro a ha hb
          rw [List.mem_singleton] at hb
          subst hb
          exact hin ha

/-- C10: the behavioral_flags list derived from the key risk factors and
placed verbatim in the risk_signals group of the final record contains
"statement_contradiction" whenever contradictions_detected is true
(force-appended if not already mapped), and never contains duplicates. -/
theorem c10_behavioral_flags (krf : List String) (contra : Bool)
    (cl : String) (aq : AudioQuality) (sa : SpeakerAnalysis)
    (se : SentimentResult) (it : IntentResult) (ob : String) (en : Entities)
    (atf : List String) (ra : RiskAssessment) (su : String)
    (conv : Option (List Utterance)) :
    (deriveBehavioralFlags krf contra).Nodup ∧
    (contra = true →
      "statement_contradiction" ∈ deriveBehavioralFlags krf contra) ∧
    jGet (jGet (assembleFinalJson cl aq sa se it ob en contra atf
        (deriveBehavioralFlags krf contra) ra su conv) "risk_signals")
      "behavioral_flags" =
      J.arr ((deriveBehavioralFlags krf contra).map J.str) := by
  refine ⟨?_, ?_, rfl⟩
  · simp only [deriveBehavioralFlags]
    have hF := behavioralFold_nodup krf [] List.nodup_nil
    split_ifs with hc
    · rw [List.nodup_append]
      refine ⟨hF, List.nodup_singleton _, ?_⟩
      intro a ha hb
      rw [List.mem_singleton] at hb
      subst hb
      exact hc.2 ha
    · exact hF
  · intro hcontra
    simp only [deriveBehavioralFlags]
    by_cases hin : "statement_contradiction" ∈ krf.foldl
        (fun acc factor =>
          match behavioralFlagMap factor with
          | some flag => if flag ∈ acc then acc else acc ++ [flag]
          | none => acc) []
    · rw [if_neg (fun hand => hand.2 hin)]
      exact hin
    · rw [if_pos ⟨hcontra, hin⟩]
      simp

/-- Witness for C10 at a concrete factor list with the contradiction flag
set. -/
theorem c10_behavioral_flags_witness :
    (deriveBehavioralFlags ["weak_obligation"] true).Nodup ∧
    "statement_contradiction" ∈ deriveBehavioralFlags ["weak_obligation"] true :=
  ⟨(c10_behavioral_flags ["weak_obligation"] true "english"
      ⟨"low", "high", "normal"⟩ ⟨true, false⟩ ⟨"calm", 1⟩
      ⟨"repayment_promise", 1, "low"⟩ "strong" ⟨none, none⟩ [] ⟨10, "low", 1, []⟩
      "Customer promised repayment." none).1,
   (c10_behavioral_flags ["weak_obligation"] true "english"
      ⟨"low", "high", "normal"⟩ ⟨true, false⟩ ⟨"calm", 1⟩
      ⟨"repayment_promise", 1, "low"⟩ "strong" ⟨none, none⟩ [] ⟨10, "low", 1, []⟩
      "Customer promised repayment." none).2.1 rfl⟩

end VoiceOps
